import Mathlib

/-!
Verification of the AutoAvatar voice-cloning / audio pipeline
(src/utils/voice_cloner.py, src/utils/tts_engine.py, src/video_generator.py).

Embedding conventions:
* Audio samples are rationals (the Python code works on float arrays in [-1, 1]);
  every arithmetic branch of the source is kept, while transcendental
  quantities (square roots, logarithms, FFT magnitudes) that only feed into
  clamped scores enter as explicit parameters.
* The STFT-based noise reduction and the frame-based silence trim of librosa
  are embedded with frame length 1 (per-sample power), keeping the exact
  dB-threshold arithmetic, over-subtraction factor and floors of the source.
* Fallible external calls (file and device I/O, SDK calls) are modelled as
  Except-valued parameters; a Python method body wrapped in try/except is a
  total Lean function matching on those parameters.
-/

namespace AutoAvatar

/-- Canonical processing sample rate, `VoiceCloner.sample_rate = 22050`. -/
def sampleRate : ℕ := 22050

/-- Microphone capture rate in `record_voice_from_microphone` (44100). -/
def captureRate : ℕ := 44100

/-- Capture frame size in `record_voice_from_microphone` (chunk = 1024). -/
def chunkSize : ℕ := 1024

/-- Maximum absolute sample value of a waveform (numpy max of abs, 0 for empty). -/
def maxAbs (w : List ℚ) : ℚ := w.foldr (fun x m => max |x| m) 0

/-- Maximum per-sample power of a waveform. -/
def maxPow (w : List ℚ) : ℚ := w.foldr (fun x m => max (x ^ 2) m) 0

/-- Mean of squared samples (0 for the empty list, matching no claim-relevant path). -/
def meanSq (w : List ℚ) : ℚ := (w.map (fun x => x ^ 2)).sum / w.length

/-- librosa amin floor used by power_to_db (1e-10). -/
def aminQ : ℚ := 1 / 10 ^ 10

/-- float32 tiny threshold used by librosa.util.normalize (2^-126). -/
def tinyQ : ℚ := 1 / 2 ^ 126

/-- librosa.util.normalize with norm=inf: divide by the max magnitude unless it
is below the tiny threshold, in which case the signal is left unchanged. -/
def normalizeAudio (w : List ℚ) : List ℚ :=
  if maxAbs w < tinyQ then w else w.map (fun x => x / maxAbs w)

/-- Silence test of librosa.effects.trim with top_db = 20: a frame is non-silent
iff power_to_db(power, ref = max power) > -20, i.e. 100 * max(power, amin) >
max(ref, amin); frame length 1, so per-sample power x^2. -/
def isSilentAt (ref : ℚ) (x : ℚ) : Bool := decide (100 * max (x ^ 2) aminQ ≤ max ref aminQ)

/-- librosa.effects.trim(audio, top_db=20): drop leading and trailing silent
samples, where silence is relative to the maximal power of the signal. -/
def trimSilence (w : List ℚ) : List ℚ :=
  let ref := maxPow w
  ((w.dropWhile (isSilentAt ref)).reverse.dropWhile (isSilentAt ref)).reverse

/-- Sign of a rational (the phase factor of a real sample under the STFT with
frame length 1). -/
def signQ (x : ℚ) : ℚ := if x < 0 then -1 else if 0 < x then 1 else 0

/-- Number of leading frames used for the noise estimate:
noise_frames = int(0.5 * 22050 / 512) = 21, from `_reduce_noise`. -/
def noiseFrames : ℕ := 21

/-- Output length of librosa.istft with default hop_length 512, center=True
and no length argument, on a signal of n input samples: the stft has
1 + n / 512 frames and the reconstruction keeps hop * (frames - 1)
= 512 * (n / 512) samples — the length is rounded down to a multiple of 512,
and inputs shorter than 512 samples come back empty. -/
def istftLen (n : ℕ) : ℕ := 512 * (n / 512)

/-- `VoiceCloner._reduce_noise` with the spectral arithmetic at frame
length 1: magnitude |x|, noise floor estimated as the mean magnitude of the
first `noiseFrames` frames, spectral subtraction with over-subtraction
factor alpha = 2, clamped below at 0.1 * magnitude, reconstructed with the
original phase (sign); the istft reconstruction truncates the output to
`istftLen` of the input length. -/
def reduceNoise (w : List ℚ) : List ℚ :=
  let mags := w.map (fun x => |x|)
  let noise := (mags.take noiseFrames).sum / (mags.take noiseFrames).length
  (w.map (fun x => max (|x| - 2 * noise) (1 / 10 * |x|) * signQ x)).take (istftLen w.length)

/-- `VoiceCloner._process_audio_file` applied to the waveform as loaded at the
canonical 22050 Hz rate: normalize, trim silence, reduce noise.  The function
always returns a plain waveform; the source has no distinct empty/err result. -/
def processAudioFile (audio : List ℚ) : List ℚ :=
  reduceNoise (trimSilence (normalizeAudio audio))

/-- Resampling from the 44100 Hz capture rate to the canonical 22050 Hz rate
performed by librosa.load inside `_process_audio_file` (modelled as
decimation by two; output length = ceil(n / 2) as for librosa.resample). -/
def decimate : List ℚ → List ℚ
  | [] => []
  | [x] => [x]
  | x :: _ :: t => x :: decimate t

/-- Number of frames captured by `record_voice_from_microphone`:
int(rate / chunk * duration).  rate / chunk = 44100 / 1024 is exactly
representable in binary floating point and 44100 * d is exact in float64 for
all realistic d, so the Python value equals the integer floor. -/
def numFrames (d : ℕ) : ℕ := captureRate * d / chunkSize

/-- The raw samples captured for a requested duration `d`: the first
numFrames d * chunkSize samples read from the microphone stream. -/
def capturedSamples (mic : List ℚ) (d : ℕ) : List ℚ := mic.take (numFrames d * chunkSize)

/-- The waveform that `record_voice_from_microphone` saves to output_path:
the captured 44100 Hz signal written to a temp wav, reloaded at 22050 Hz
(decimation), then run through `_process_audio_file`. -/
def recordSavedWaveform (mic : List ℚ) (d : ℕ) : List ℚ :=
  processAudioFile (decimate (capturedSamples mic d))

/-- `VoiceCloner._assess_audio_quality` final score: the SNR term
(10 * log10 of a power ratio) and the mean spectral centroid are
transcendental and enter as parameters; the source clamps their combination
into [0, 1] via min(1.0, max(0.0, (snr / 30 + centroid / 5000) / 2)). -/
def assessAudioQuality (snr sc : ℚ) : ℚ :=
  min 1 (max 0 ((snr / 30 + sc / 5000) / 2))

/-- `VoiceCloner._assess_chunk_quality` final score: rms is the (nonnegative)
square root of the mean squared sample and enters as a parameter; peak is the
maximum absolute sample; quality = min(1, rms * 5) * min(1, peak * 2). -/
def assessChunkQuality (rms peak : ℚ) : ℚ :=
  min 1 (rms * 5) * min 1 (peak * 2)

/-! ### Segmentation: `VoiceCloner.create_voice_samples` -/

/-- A speech chunk produced by pydub split_on_silence: its duration in seconds
(len(chunk) / 1000.0) and its PCM samples. -/
structure AudioChunk where
  duration : ℚ
  samples : List ℚ
deriving DecidableEq

/-- One entry of the valid_samples list: duration plus the computed quality. -/
structure ScoredSample where
  duration : ℚ
  quality : ℚ
deriving DecidableEq

/-- The dictionary returned by `create_voice_samples` (the transcriptions list
is not modelled; no claim concerns it). -/
structure SamplesResult where
  success : Bool
  error : Option String
  totalSamples : ℕ
  bestSamples : List ScoredSample
deriving DecidableEq

/-- The duration filter of `create_voice_samples`:
keep a chunk iff min_duration <= duration <= max_duration. -/
def filterChunks (minD maxD : ℚ) (chunks : List AudioChunk) : List AudioChunk :=
  chunks.filter (fun c => decide (minD ≤ c.duration) && decide (c.duration ≤ maxD))

/-- Descending-quality order used to sort valid_samples
(`sort(key=quality, reverse=True)`). -/
def qualityGE (a b : ScoredSample) : Prop := b.quality ≤ a.quality

instance : DecidableRel qualityGE := fun a b => inferInstanceAs (Decidable (b.quality ≤ a.quality))

/-- `VoiceCloner.create_voice_samples`: the chunk list (the result of loading
the file and splitting on silence, both fallible external calls) enters as an
Except parameter, as does the per-chunk quality heuristic (whose square root
is transcendental; every claim below holds for every quality function).
Filter by duration, score, sort descending by quality, keep the best
min(10, len) samples.  Any exception gives the error dictionary. -/
def createVoiceSamples (q : AudioChunk → ℚ) (minD maxD : ℚ)
    (loadResult : Except String (List AudioChunk)) : SamplesResult :=
  match loadResult with
  | .error e => { success := false, error := some e, totalSamples := 0, bestSamples := [] }
  | .ok chunks =>
    let valid := (filterChunks minD maxD chunks).map
      (fun c => { duration := c.duration, quality := q c : ScoredSample })
    let sorted := List.insertionSort qualityGE valid
    let best := sorted.take (min 10 sorted.length)
    { success := true, error := none, totalSamples := valid.length, bestSamples := best }

/-! ### Pipeline result dictionaries of the other VoiceCloner entry points -/

/-- Result dictionary of `extract_voice_from_video`. -/
structure VideoExtractResult where
  success : Bool
  error : Option String
  duration : ℚ
  sampleRateOut : ℕ
  channels : ℕ
deriving DecidableEq

/-- Result dictionary of `extract_voice_from_audio`. -/
structure AudioExtractResult where
  success : Bool
  error : Option String
  duration : ℚ
  sampleRateOut : ℕ
  qualityScore : ℚ
deriving DecidableEq

/-- Result dictionary of `record_voice_from_microphone`. -/
structure RecordResult where
  success : Bool
  error : Option String
  duration : ℚ
  qualityScore : ℚ
deriving DecidableEq

/-- Result dictionary of `clone_voice_with_text`. -/
structure CloneResult where
  success : Bool
  error : Option String
  text : String
  voiceSimilarity : ℚ
deriving DecidableEq

/-- `VoiceCloner.extract_voice_from_video`.  Parameters: the module-level
MoviePy availability flag; the video/audio load (ok none = video has no audio
track, ok (some w) = the extracted track as loaded at 22050 Hz); the file
writes and removals of the body.  The try/except wrapper returns the error
dictionary on any raised exception. -/
def extractVoiceFromVideo (moviepyAvailable : Bool)
    (loadResult : Except String (Option (List ℚ)))
    (ioResult : Except String Unit) : VideoExtractResult :=
  if !moviepyAvailable then
    { success := false, error := some "MoviePy not available. Cannot process video files.",
      duration := 0, sampleRateOut := 0, channels := 0 }
  else
    match loadResult with
    | .error e => { success := false, error := some e, duration := 0, sampleRateOut := 0,
                    channels := 0 }
    | .ok none => { success := false, error := some "Video has no audio track",
                    duration := 0, sampleRateOut := 0, channels := 0 }
    | .ok (some audio) =>
      match ioResult with
      | .error e => { success := false, error := some e, duration := 0, sampleRateOut := 0,
                      channels := 0 }
      | .ok _ =>
        let processed := processAudioFile audio
        { success := true, error := none, duration := processed.length / sampleRate,
          sampleRateOut := sampleRate, channels := 1 }

/-- `VoiceCloner.extract_voice_from_audio`: process the loaded waveform, write
it out, and report duration and the clamped quality score (whose SNR and
spectral-centroid inputs are parameters). -/
def extractVoiceFromAudio (loadResult : Except String (List ℚ))
    (ioResult : Except String Unit) (snr sc : ℚ) : AudioExtractResult :=
  match loadResult with
  | .error e => { success := false, error := some e, duration := 0, sampleRateOut := 0,
                  qualityScore := 0 }
  | .ok audio =>
    match ioResult with
    | .error e => { success := false, error := some e, duration := 0, sampleRateOut := 0,
                    qualityScore := 0 }
    | .ok _ =>
      let processed := processAudioFile audio
      { success := true, error := none, duration := processed.length / sampleRate,
        sampleRateOut := sampleRate, qualityScore := assessAudioQuality snr sc }

/-- `VoiceCloner.record_voice_from_microphone` as present in src (duration and
output path only; no gain parameter).  The capture loop and the wav/file I/O
are the fallible parameters.  The returned duration field is the requested
duration (line 187 of voice_cloner.py), not the processed length. -/
def recordVoiceFromMicrophone (duration : ℕ)
    (captureResult : Except String (List ℚ))
    (ioResult : Except String Unit) (snr sc : ℚ) : RecordResult :=
  match captureResult with
  | .error e => { success := false, error := some e, duration := 0, qualityScore := 0 }
  | .ok _ =>
    match ioResult with
    | .error e => { success := false, error := some e, duration := 0, qualityScore := 0 }
    | .ok _ =>
      { success := true, error := none, duration := duration,
        qualityScore := assessAudioQuality snr sc }

/-- `VoiceCloner.clone_voice_with_text`: load the reference samples from the
samples directory (fallible), fail with a typed message when none are found,
otherwise synthesize (the placeholder synthesizer always succeeds) and report
similarity_score 0.8 from `_extract_voice_characteristics`. -/
def cloneVoiceWithText (loadResult : Except String (List (List ℚ)))
    (ioResult : Except String Unit) (text : String) : CloneResult :=
  match loadResult with
  | .error e => { success := false, error := some e, text := "", voiceSimilarity := 0 }
  | .ok refs =>
    if refs.isEmpty then
      { success := false, error := some "No voice samples found", text := "",
        voiceSimilarity := 0 }
    else
      match ioResult with
      | .error e => { success := false, error := some e, text := "", voiceSimilarity := 0 }
      | .ok _ =>
        { success := true, error := none, text := text, voiceSimilarity := 4 / 5 }

/-! ### TTS engine: `src/utils/tts_engine.py` -/

/-- Backend availability flags of `TTSEngine.__init__`
(voice_cloner_available is unconditionally True in the source, but it is kept
as a field because `generate_speech` tests it). -/
structure TTSState where
  elevenlabsAvailable : Bool
  azureAvailable : Bool
  voiceClonerAvailable : Bool
deriving DecidableEq

/-- Python text.split(): split on whitespace runs, dropping empty pieces. -/
def splitWords (text : String) : List String :=
  (text.split Char.isWhitespace).filter (fun w => w ≠ "")

/-- Duration in milliseconds of the silence written by `_generate_basic_tts`:
len(text.split()) * 500. -/
def basicTTSDurationMs (text : String) : ℕ := (splitWords text).length * 500

/-- The audio written by `_generate_basic_tts`: pure silence of
`basicTTSDurationMs` milliseconds (modelled as one zero sample per
millisecond). -/
def basicTTSAudio (text : String) : List ℚ :=
  List.replicate (basicTTSDurationMs text) 0

/-- `TTSEngine._generate_basic_tts`: export the silence (fallible I/O enters
as a parameter); on success return True and the written audio, on an export
exception the internal except-branch returns False. -/
def generateBasicTTS (text : String) (exportResult : Except String Unit) :
    Bool × Option (List ℚ) :=
  match exportResult with
  | .ok _ => (true, some (basicTTSAudio text))
  | .error _ => (false, none)

/-- A backend call inside the try-block of `generate_speech`: a raised
exception falls through to `_generate_basic_tts`, otherwise the backend's
boolean is returned. -/
def tryBackend (r : Except String Bool) (basicResult : Bool) : Bool :=
  match r with
  | .ok v => v
  | .error _ => basicResult

/-- The provider dispatch inside the try-block of `generate_speech` (the
elif chain re-checking availability), with the except-branch falling back to
the basic TTS result. -/
def dispatchProvider (st : TTSState) (provider : String) (samplesDir : Option String)
    (clonedR elevenR azureR : Except String Bool) (basicResult : Bool) : Bool :=
  if provider == "cloned" && samplesDir.isSome && st.voiceClonerAvailable then
    tryBackend clonedR basicResult
  else if provider == "elevenlabs" && st.elevenlabsAvailable then
    tryBackend elevenR basicResult
  else if provider == "azure" && st.azureAvailable then
    tryBackend azureR basicResult
  else basicResult

/-- `TTSEngine.generate_speech`: for provider "auto" the source first rewrites
the provider string (cloned if a samples dir is given and the cloner is
available, else elevenlabs, else azure, else a direct basic-TTS call), then
dispatches through the guarded elif chain whose except-branch falls back to
basic TTS.  Each backend call is an Except parameter; basicResult is the
boolean of `_generate_basic_tts` (which never raises). -/
def generateSpeech (st : TTSState) (provider : String) (samplesDir : Option String)
    (clonedR elevenR azureR : Except String Bool) (basicResult : Bool) : Bool :=
  if provider == "auto" then
    if samplesDir.isSome && st.voiceClonerAvailable then
      dispatchProvider st "cloned" samplesDir clonedR elevenR azureR basicResult
    else if st.elevenlabsAvailable then
      dispatchProvider st "elevenlabs" samplesDir clonedR elevenR azureR basicResult
    else if st.azureAvailable then
      dispatchProvider st "azure" samplesDir clonedR elevenR azureR basicResult
    else basicResult
  else dispatchProvider st provider samplesDir clonedR elevenR azureR basicResult

/-! ### Gain-controlled recording and level monitoring

The facades `TTSEngine.record_voice_from_microphone` (gain_multiplier,
device_index, progress_callback), `TTSEngine.start_audio_monitoring`,
`TTSEngine.get_current_audio_level` and the corresponding
`AutoVideoGenerator` methods all delegate to `VoiceCloner` methods with those
signatures, but the `VoiceCloner` in src/utils/voice_cloner.py has no gain
parameter and no monitoring methods: the gain-capable implementation is
missing from src (only its callers are present), so it is modelled from the
spec below. -/

/-- Modelled from the spec: summary statistics of a completed gain-applied
recording (the AudioStats of §3/§4.3; rms is carried as its square to stay in
ℚ).  The missing code is the gain-capable
`VoiceCloner.record_voice_from_microphone`. -/
structure AudioStats where
  rmsSq : ℚ
  peak : ℚ
  clipping : Bool
deriving DecidableEq

/-- Modelled from the spec: gain application of §4.3 — each post-gain sample
is clipped at full scale ([-1, 1]), not wrapped. -/
def clipSample (x : ℚ) : ℚ := max (-1) (min 1 x)

/-- Modelled from the spec: the post-gain waveform. -/
def applyGain (g : ℚ) (raw : List ℚ) : List ℚ := raw.map (fun s => clipSample (g * s))

/-- Modelled from the spec: the gain-capable
`VoiceCloner.record_voice_from_microphone` missing from src — apply the gain
(with clipping at full scale), record whether any post-gain sample exceeded
full scale in the stats, and compute all quality metrics on the post-gain
signal. -/
def recordWithGain (g : ℚ) (raw : List ℚ) : List ℚ × AudioStats :=
  let w := applyGain g raw
  (w, { rmsSq := meanSq w, peak := maxAbs w,
        clipping := raw.any (fun s => decide (1 < |g * s|)) })

/-- `TTSEngine.record_voice_from_microphone`: a pure pass-through to the
voice cloner's gain-capable recorder. -/
def ttsRecordWithGain (g : ℚ) (raw : List ℚ) : List ℚ × AudioStats := recordWithGain g raw

/-- Modelled from the spec: the LevelSnapshot of §3 — rms and peak in [0, 1],
a clipping flag, and the gain applied.  The missing code is the monitoring
side of `VoiceCloner` (`get_current_audio_level` and friends). -/
structure LevelSnapshot where
  rms : ℚ
  peak : ℚ
  clipping : Bool
  gainApplied : ℚ
deriving DecidableEq

/-- Modelled from the spec: the zeroed snapshot returned before any snapshot
has been published. -/
def zeroSnapshot : LevelSnapshot :=
  { rms := 0, peak := 0, clipping := false, gainApplied := 0 }

/-- Modelled from the spec: the monitor state visible to readers — only the
latest published snapshot is retained (last-value-wins), or none before the
first one is computed. -/
structure MonitorState where
  latest : Option LevelSnapshot
deriving DecidableEq

/-- Modelled from the spec: `current_level` / the missing
`VoiceCloner.get_current_audio_level` — a pure, total read of the published
state: the latest snapshot, or the zeroed snapshot if none yet. -/
def getCurrentAudioLevel (s : MonitorState) : LevelSnapshot :=
  s.latest.getD zeroSnapshot

/-- `TTSEngine.get_current_audio_level`: delegates to the voice cloner. -/
def ttsGetCurrentAudioLevel (s : MonitorState) : LevelSnapshot := getCurrentAudioLevel s

/-- `AutoVideoGenerator.get_current_audio_level`: delegates to the engine. -/
def videoGenGetCurrentAudioLevel (s : MonitorState) : LevelSnapshot := ttsGetCurrentAudioLevel s

/-! ## Helper lemmas -/

theorem foldr_maxabs_nonneg (w : List ℚ) (i : ℚ) (hi : 0 ≤ i) :
    0 ≤ w.foldr (fun x m => max |x| m) i := by
  induction w with
  | nil => exact hi
  | cons a t ih => exact le_trans ih (le_max_right _ _)

theorem maxAbs_nonneg (w : List ℚ) : 0 ≤ maxAbs w :=
  foldr_maxabs_nonneg w 0 le_rfl

theorem clipSample_abs_le_one (x : ℚ) : |clipSample x| ≤ 1 := by
  rw [abs_le]
  constructor
  · exact le_max_left _ _
  · exact max_le (by norm_num) (min_le_left _ _)

theorem foldr_maxabs_replicate_zero (n : ℕ) (i : ℚ) (hi : 0 ≤ i) :
    (List.replicate n (0 : ℚ)).foldr (fun x m => max |x| m) i = i := by
  induction n with
  | zero => rfl
  | succ n ih =>
    rw [List.replicate_succ, List.foldr_cons, ih]
    simp [max_eq_right hi]

theorem foldr_maxpow_replicate_zero (n : ℕ) (i : ℚ) (hi : 0 ≤ i) :
    (List.replicate n (0 : ℚ)).foldr (fun x m => max (x ^ 2) m) i = i := by
  induction n with
  | zero => rfl
  | succ n ih =>
    rw [List.replicate_succ, List.foldr_cons, ih]
    simp [max_eq_right hi]

theorem maxAbs_replicate_zero (n : ℕ) : maxAbs (List.replicate n 0) = 0 :=
  foldr_maxabs_replicate_zero n 0 le_rfl

theorem maxPow_replicate_zero (n : ℕ) : maxPow (List.replicate n 0) = 0 :=
  foldr_maxpow_replicate_zero n 0 le_rfl

theorem normalizeAudio_replicate_zero (n : ℕ) :
    normalizeAudio (List.replicate n 0) = List.replicate n 0 := by
  rw [normalizeAudio, if_pos]
  rw [maxAbs_replicate_zero, tinyQ]
  norm_num

theorem isSilentAt_zero_zero : isSilentAt 0 0 = false := by
  rw [isSilentAt, aminQ]
  norm_num

theorem dropWhile_replicate_of_false (p : ℚ → Bool) (x : ℚ) (h : p x = false) (n : ℕ) :
    (List.replicate n x).dropWhile p = List.replicate n x := by
  cases n with
  | zero => rfl
  | succ n => rw [List.replicate_succ, List.dropWhile_cons_of_neg (by simp [h])]

theorem trimSilence_replicate_zero (n : ℕ) :
    trimSilence (List.replicate n 0) = List.replicate n 0 := by
  rw [trimSilence]
  simp only [maxPow_replicate_zero]
  rw [dropWhile_replicate_of_false _ _ isSilentAt_zero_zero,
    List.reverse_replicate, dropWhile_replicate_of_false _ _ isSilentAt_zero_zero,
    List.reverse_replicate]

theorem istftLen_le (n : ℕ) : istftLen n ≤ n := by
  rw [istftLen, Nat.mul_comm]
  exact Nat.div_mul_le_self n 512

theorem reduceNoise_replicate_zero (n : ℕ) :
    reduceNoise (List.replicate n 0) = List.replicate (istftLen n) 0 := by
  rw [reduceNoise]
  simp only [List.map_replicate, List.length_replicate, abs_zero, List.take_replicate,
    List.sum_replicate, smul_zero, zero_div, signQ]
  rw [min_eq_left (istftLen_le n)]
  congr 1
  norm_num

theorem processAudioFile_replicate_zero (n : ℕ) :
    processAudioFile (List.replicate n 0) = List.replicate (istftLen n) 0 := by
  rw [processAudioFile, normalizeAudio_replicate_zero, trimSilence_replicate_zero,
    reduceNoise_replicate_zero]

theorem decimate_replicate_two_mul (k : ℕ) (x : ℚ) (l : List ℚ) :
    decimate (List.replicate (2 * k) x ++ l) = List.replicate k x ++ decimate l := by
  induction k with
  | zero => simp
  | succ k ih =>
    have h2 : 2 * (k + 1) = (2 * k) + 1 + 1 := by ring
    rw [h2, List.replicate_succ, List.replicate_succ, List.cons_append, List.cons_append,
      decimate, ih, List.replicate_succ, List.cons_append]

theorem decimate_replicate (k : ℕ) (x : ℚ) :
    decimate (List.replicate (2 * k) x) = List.replicate k x := by
  have h := decimate_replicate_two_mul k x []
  rw [List.append_nil] at h
  rw [h, decimate, List.append_nil]

theorem foldr_maxabs_replicate (n : ℕ) (x i : ℚ) :
    (List.replicate n x).foldr (fun y m => max |y| m) i =
      if n = 0 then i else max |x| i := by
  induction n with
  | zero => rfl
  | succ n ih =>
    rw [List.replicate_succ, List.foldr_cons, ih]
    cases n with
    | zero => simp
    | succ n => simp [← max_assoc, max_self]

theorem foldr_maxpow_replicate (n : ℕ) (x i : ℚ) :
    (List.replicate n x).foldr (fun y m => max (y ^ 2) m) i =
      if n = 0 then i else max (x ^ 2) i := by
  induction n with
  | zero => rfl
  | succ n ih =>
    rw [List.replicate_succ, List.foldr_cons, ih]
    cases n with
    | zero => simp
    | succ n => simp [← max_assoc, max_self]

theorem maxAbs_zeros_ones (a b : ℕ) (hb : b ≠ 0) :
    maxAbs (List.replicate a 0 ++ List.replicate b 1) = 1 := by
  rw [maxAbs, List.foldr_append, foldr_maxabs_replicate, foldr_maxabs_replicate,
    if_neg hb]
  simp

theorem maxPow_zeros_ones (a b : ℕ) (hb : b ≠ 0) :
    maxPow (List.replicate a 0 ++ List.replicate b 1) = 1 := by
  rw [maxPow, List.foldr_append, foldr_maxpow_replicate, foldr_maxpow_replicate,
    if_neg hb]
  simp

theorem normalizeAudio_zeros_ones (a b : ℕ) (hb : b ≠ 0) :
    normalizeAudio (List.replicate a 0 ++ List.replicate b 1) =
      List.replicate a 0 ++ List.replicate b 1 := by
  rw [normalizeAudio, if_neg, maxAbs_zeros_ones a b hb]
  · simp
  · rw [maxAbs_zeros_ones a b hb, tinyQ]
    norm_num

theorem isSilentAt_one_zero : isSilentAt 1 0 = true := by
  rw [isSilentAt, aminQ]
  norm_num

theorem isSilentAt_one_one : isSilentAt 1 1 = false := by
  rw [isSilentAt, aminQ]
  norm_num

theorem dropWhile_replicate_append_of_true (p : ℚ → Bool) (x : ℚ) (h : p x = true)
    (n : ℕ) (l : List ℚ) :
    (List.replicate n x ++ l).dropWhile p = l.dropWhile p := by
  induction n with
  | zero => simp
  | succ n ih =>
    rw [List.replicate_succ, List.cons_append, List.dropWhile_cons_of_pos (by simp [h]), ih]

theorem trimSilence_zeros_ones (a b : ℕ) (hb : b ≠ 0) :
    trimSilence (List.replicate a 0 ++ List.replicate b 1) = List.replicate b 1 := by
  rw [trimSilence]
  simp only [maxPow_zeros_ones a b hb]
  rw [dropWhile_replicate_append_of_true _ _ isSilentAt_one_zero,
    dropWhile_replicate_of_false _ _ isSilentAt_one_one,
    List.reverse_replicate, dropWhile_replicate_of_false _ _ isSilentAt_one_one,
    List.reverse_replicate]

theorem reduceNoise_replicate_one (n : ℕ) (h : noiseFrames ≤ n) :
    reduceNoise (List.replicate n 1) = List.replicate (istftLen n) (1 / 10) := by
  rw [reduceNoise]
  simp only [List.map_replicate, abs_one, List.take_replicate, min_eq_left h,
    List.sum_replicate, List.length_replicate, nsmul_eq_mul, mul_one]
  have hq : ((noiseFrames : ℚ)) / (noiseFrames : ℚ) = 1 := by
    rw [noiseFrames]
    norm_num
  rw [hq, min_eq_left (istftLen_le n)]
  congr 1
  rw [signQ]
  norm_num

theorem processAudioFile_zeros_ones (a b : ℕ) (hb : noiseFrames ≤ b) :
    processAudioFile (List.replicate a 0 ++ List.replicate b 1) =
      List.replicate (istftLen b) (1 / 10) := by
  have hb0 : b ≠ 0 := by
    intro h
    rw [h] at hb
    exact absurd (Nat.le_zero.mp hb) (by rw [noiseFrames]; norm_num)
  rw [processAudioFile, normalizeAudio_zeros_ones a b hb0, trimSilence_zeros_ones a b hb0,
    reduceNoise_replicate_one b hb]

/-! ## Claim theorems -/

/-- C8: the quality scores computed by `_assess_audio_quality` (for every SNR
and spectral-centroid value) and by `_assess_chunk_quality` (for every sample
list and every nonnegative rms value, the peak being the maximum absolute
sample) lie in the closed interval [0, 1]. -/
theorem claim_C8_quality_scores_bounded :
    (∀ snr sc : ℚ, 0 ≤ assessAudioQuality snr sc ∧ assessAudioQuality snr sc ≤ 1) ∧
    (∀ (samples : List ℚ) (rms : ℚ), 0 ≤ rms →
      0 ≤ assessChunkQuality rms (maxAbs samples) ∧
        assessChunkQuality rms (maxAbs samples) ≤ 1) := by
  constructor
  · intro snr sc
    unfold assessAudioQuality
    constructor
    · exact le_min (by norm_num) (le_max_left _ _)
    · exact min_le_left _ _
  · intro samples rms hrms
    unfold assessChunkQuality
    have hpeak : 0 ≤ maxAbs samples := maxAbs_nonneg samples
    have h1 : 0 ≤ min 1 (rms * 5) := le_min (by norm_num) (by positivity)
    have h2 : 0 ≤ min 1 (maxAbs samples * 2) := le_min (by norm_num) (by positivity)
    constructor
    · exact mul_nonneg h1 h2
    · calc min 1 (rms * 5) * min 1 (maxAbs samples * 2)
          ≤ 1 * min 1 (maxAbs samples * 2) :=
            mul_le_mul_of_nonneg_right (min_le_left _ _) h2
        _ ≤ 1 * 1 := mul_le_mul_of_nonneg_left (min_le_left _ _) (by norm_num)
        _ = 1 := by norm_num

/-- Witness for C8 at rms = 0 over the sample list [0]. -/
theorem claim_C8_quality_scores_bounded_witness :
    0 ≤ assessChunkQuality 0 (maxAbs [0]) ∧ assessChunkQuality 0 (maxAbs [0]) ≤ 1 :=
  claim_C8_quality_scores_bounded.2 [0] 0 le_rfl

/-- C2: for every monitor state, `get_current_audio_level` (through the
TTSEngine and AutoVideoGenerator facades down to the voice cloner) returns
the latest published snapshot, or the zeroed snapshot when none has been
computed yet; the accessor is a total pure read of the published state (it
cannot raise, and never touches the capture loop). -/
theorem claim_C2_current_level_snapshot :
    ∀ s : MonitorState,
      (s.latest = none → getCurrentAudioLevel s = zeroSnapshot) ∧
      (∀ snap, s.latest = some snap → getCurrentAudioLevel s = snap) ∧
      ttsGetCurrentAudioLevel s = getCurrentAudioLevel s ∧
      videoGenGetCurrentAudioLevel s = getCurrentAudioLevel s := by
  intro s
  refine ⟨fun h => ?_, fun snap h => ?_, rfl, rfl⟩
  · simp [getCurrentAudioLevel, h]
  · simp [getCurrentAudioLevel, h]

/-- Witness for C2 at an empty and a populated monitor state. -/
theorem claim_C2_current_level_snapshot_witness :
    getCurrentAudioLevel { latest := none } = zeroSnapshot ∧
      getCurrentAudioLevel { latest := some zeroSnapshot } = zeroSnapshot :=
  ⟨(claim_C2_current_level_snapshot { latest := none }).1 rfl,
    (claim_C2_current_level_snapshot { latest := some zeroSnapshot }).2.1 zeroSnapshot rfl⟩

/-- C1 (spec-modelled): with a gain multiplier g > 0, the recorder entry
point returns the post-gain waveform with each sample clipped into [-1, 1]
(never wrapped), records clipping in the statistics exactly when some
post-gain sample exceeds full scale, computes the quality metrics (rms
square, peak) on the post-gain signal, and the TTSEngine facade is a pure
delegation to it. -/
theorem claim_C1_gain_applied_before_metrics :
    ∀ (g : ℚ) (raw : List ℚ), 0 < g →
      (recordWithGain g raw).1 = applyGain g raw ∧
      (∀ x ∈ (recordWithGain g raw).1, |x| ≤ 1) ∧
      ((recordWithGain g raw).2.clipping = true ↔ ∃ s ∈ raw, 1 < |g * s|) ∧
      (recordWithGain g raw).2.rmsSq = meanSq (recordWithGain g raw).1 ∧
      (recordWithGain g raw).2.peak = maxAbs (recordWithGain g raw).1 ∧
      ttsRecordWithGain g raw = recordWithGain g raw := by
  intro g raw _
  refine ⟨rfl, ?_, ?_, rfl, rfl, rfl⟩
  · intro x hx
    simp only [recordWithGain, applyGain, List.mem_map] at hx
    obtain ⟨s, _, rfl⟩ := hx
    exact clipSample_abs_le_one (g * s)
  · simp [recordWithGain, List.any_eq_true]

/-- Witness for C1 at gain 2 on the one-sample waveform [1]. -/
theorem claim_C1_gain_applied_before_metrics_witness :
    (recordWithGain 2 [(1 : ℚ)]).2.rmsSq = meanSq (recordWithGain 2 [(1 : ℚ)]).1 ∧
      (recordWithGain 2 [(1 : ℚ)]).2.clipping = true :=
  ⟨(claim_C1_gain_applied_before_metrics 2 [1] (by norm_num)).2.2.2.1,
    (claim_C1_gain_applied_before_metrics 2 [1] (by norm_num)).2.2.1.mpr
      ⟨1, by simp, by norm_num⟩⟩

/-- C7: with voice provider "auto", `generate_speech` selects the first
available backend in the fixed order cloned (samples dir given and cloner
available) > elevenlabs > azure > basic; and whenever the selected backend
raises, the result is that of the basic fallback instead of a propagated
exception. -/
theorem claim_C7_auto_provider_order :
    ∀ (st : TTSState) (dir : Option String) (cR eR aR : Except String Bool) (b : Bool),
      (generateSpeech st "auto" dir cR eR aR b =
        if dir.isSome && st.voiceClonerAvailable then tryBackend cR b
        else if st.elevenlabsAvailable then tryBackend eR b
        else if st.azureAvailable then tryBackend aR b
        else b) ∧
      (∀ msg, (dir.isSome && st.voiceClonerAvailable) = true → cR = Except.error msg →
        generateSpeech st "auto" dir cR eR aR b = b) ∧
      (∀ msg, (dir.isSome && st.voiceClonerAvailable) = false →
        st.elevenlabsAvailable = true → eR = Except.error msg →
        generateSpeech st "auto" dir cR eR aR b = b) ∧
      (∀ msg, (dir.isSome && st.voiceClonerAvailable) = false →
        st.elevenlabsAvailable = false → st.azureAvailable = true →
        aR = Except.error msg →
        generateSpeech st "auto" dir cR eR aR b = b) := by
  intro st dir cR eR aR b
  have hmain : generateSpeech st "auto" dir cR eR aR b =
      if dir.isSome && st.voiceClonerAvailable then tryBackend cR b
      else if st.elevenlabsAvailable then tryBackend eR b
      else if st.azureAvailable then tryBackend aR b
      else b := by
    simp only [generateSpeech, dispatchProvider]
    rcases dir with _ | d <;>
      rcases st with ⟨e11, az, vc⟩ <;>
        cases e11 <;> cases az <;> cases vc <;> simp [tryBackend]
  refine ⟨hmain, ?_, ?_, ?_⟩
  · intro msg h hcR
    rw [hmain, if_pos h, hcR]
    rfl
  · intro msg h he heR
    rw [hmain, if_neg (by simp [h]), if_pos he, heR]
    rfl
  · intro msg h he ha haR
    rw [hmain, if_neg (by simp [h]), if_neg (by simp [he]), if_pos ha, haR]
    rfl

/-- Witness for C7: cloner available with a samples dir, the cloned backend
raises, and the result is the basic fallback's boolean. -/
theorem claim_C7_auto_provider_order_witness :
    generateSpeech ⟨false, false, true⟩ "auto" (some "d") (Except.error "boom")
        (Except.ok false) (Except.ok false) true = true :=
  (claim_C7_auto_provider_order ⟨false, false, true⟩
      (some "d") (Except.error "boom") (Except.ok false) (Except.ok false) true).2.1
    "boom" (by decide) rfl

/-- C10: for every non-empty text, when the export succeeds, the basic
fallback writes audio that is entirely silence lasting 500 ms per
whitespace-delimited word and reports True; and `generate_speech` in auto
mode reaches it (and still returns True) when no other backend is
available. -/
theorem claim_C10_basic_tts_silence :
    ∀ (text : String) (exportR : Except String Unit), text ≠ "" →
      exportR = Except.ok () →
      (generateBasicTTS text exportR).1 = true ∧
      (generateBasicTTS text exportR).2 =
        some (List.replicate ((splitWords text).length * 500) 0) ∧
      (∀ (st : TTSState) (cR eR aR : Except String Bool),
        st.elevenlabsAvailable = false → st.azureAvailable = false →
        generateSpeech st "auto" none cR eR aR (generateBasicTTS text exportR).1 = true) := by
  intro text exportR _ hexp
  subst hexp
  refine ⟨rfl, rfl, ?_⟩
  intro st cR eR aR he ha
  simp [generateSpeech, he, ha, generateBasicTTS]

/-- Witness for C10 at the text "hello world". -/
theorem claim_C10_basic_tts_silence_witness :
    (generateBasicTTS "hello world" (Except.ok ())).1 = true ∧
      (generateBasicTTS "hello world" (Except.ok ())).2 =
        some (List.replicate ((splitWords "hello world").length * 500) 0) :=
  ⟨(claim_C10_basic_tts_silence "hello world" (Except.ok ()) (by decide) rfl).1,
    (claim_C10_basic_tts_silence "hello world" (Except.ok ()) (by decide) rfl).2.1⟩

/-- C9: none of the five public VoiceCloner pipeline operations propagates an
exception: each is a total function into a result dictionary with a boolean
success field (exceptions of the body enter as Except parameters and are
caught), and whenever success is false the dictionary carries an error
string. -/
theorem claim_C9_pipeline_error_dict :
    (∀ (m : Bool) (l : Except String (Option (List ℚ))) (io : Except String Unit),
      (extractVoiceFromVideo m l io).success = false →
        ((extractVoiceFromVideo m l io).error).isSome = true) ∧
    (∀ (l : Except String (List ℚ)) (io : Except String Unit) (snr sc : ℚ),
      (extractVoiceFromAudio l io snr sc).success = false →
        ((extractVoiceFromAudio l io snr sc).error).isSome = true) ∧
    (∀ (d : ℕ) (cap : Except String (List ℚ)) (io : Except String Unit) (snr sc : ℚ),
      (recordVoiceFromMicrophone d cap io snr sc).success = false →
        ((recordVoiceFromMicrophone d cap io snr sc).error).isSome = true) ∧
    (∀ (q : AudioChunk → ℚ) (minD maxD : ℚ) (l : Except String (List AudioChunk)),
      (createVoiceSamples q minD maxD l).success = false →
        ((createVoiceSamples q minD maxD l).error).isSome = true) ∧
    (∀ (l : Except String (List (List ℚ))) (io : Except String Unit) (text : String),
      (cloneVoiceWithText l io text).success = false →
        ((cloneVoiceWithText l io text).error).isSome = true) := by
  refine ⟨?_, ?_, ?_, ?_, ?_⟩
  · intro m l io
    cases m <;> rcases l with e | w <;> [skip; skip; skip; rcases w with _ | a] <;>
      rcases io with e2 | u <;> intro h <;> simp_all [extractVoiceFromVideo]
  · intro l io snr sc
    rcases l with e | w <;> rcases io with e2 | u <;> intro h <;>
      simp_all [extractVoiceFromAudio]
  · intro d cap io snr sc
    rcases cap with e | w <;> rcases io with e2 | u <;> intro h <;>
      simp_all [recordVoiceFromMicrophone]
  · intro q minD maxD l
    rcases l with e | chunks <;> intro h <;> simp_all [createVoiceSamples]
  · intro l io text
    rcases l with e | refs <;> [skip; rcases refs with _ | r] <;>
      rcases io with e2 | u <;> intro h <;> simp_all [cloneVoiceWithText]

/-- Witness for C9: one concrete failing input per pipeline operation, each
carrying an error string. -/
theorem claim_C9_pipeline_error_dict_witness :
    ((extractVoiceFromVideo false (Except.ok none) (Except.ok ())).error).isSome = true ∧
      ((extractVoiceFromAudio (Except.error "e") (Except.ok ()) 0 0).error).isSome = true ∧
      ((recordVoiceFromMicrophone 5 (Except.error "e") (Except.ok ()) 0 0).error).isSome
        = true ∧
      ((createVoiceSamples (fun _ => 0) 3 10 (Except.error "e")).error).isSome = true ∧
      ((cloneVoiceWithText (Except.ok []) (Except.ok ()) "t").error).isSome = true :=
  ⟨claim_C9_pipeline_error_dict.1 false (Except.ok none) (Except.ok ()) rfl,
    claim_C9_pipeline_error_dict.2.1 (Except.error "e") (Except.ok ()) 0 0 rfl,
    claim_C9_pipeline_error_dict.2.2.1 5 (Except.error "e") (Except.ok ()) 0 0 rfl,
    claim_C9_pipeline_error_dict.2.2.2.1 (fun _ => 0) 3 10 (Except.error "e") rfl,
    claim_C9_pipeline_error_dict.2.2.2.2 (Except.ok []) (Except.ok ()) "t" rfl⟩

/-- C3 counterexample: with one chunk shorter than min_duration the duration
filter leaves zero candidates, and `create_voice_samples` returns
success = true (not the claimed success = false semantics) with zero
samples. -/
theorem claim_C3_counterexample_success_true :
    (createVoiceSamples (fun _ => 0) 3 10
        (Except.ok [{ duration := 1, samples := [] }])).success = true ∧
      (createVoiceSamples (fun _ => 0) 3 10
        (Except.ok [{ duration := 1, samples := [] }])).totalSamples = 0 ∧
      (createVoiceSamples (fun _ => 0) 3 10
        (Except.ok [{ duration := 1, samples := [] }])).bestSamples = [] := by
  refine ⟨rfl, ?_, ?_⟩ <;> decide

/-- C3 (amended): whenever the duration filter leaves zero candidate chunks,
`create_voice_samples` returns without raising a result whose sample set has
size 0 (total_samples = 0 and an empty best_samples list) but with
success = true; the "no usable samples" condition is observable only through
the zero count, not through a false success flag. -/
theorem claim_C3_zero_chunks_empty_success :
    ∀ (q : AudioChunk → ℚ) (minD maxD : ℚ) (chunks : List AudioChunk),
      filterChunks minD maxD chunks = [] →
      (createVoiceSamples q minD maxD (Except.ok chunks)).success = true ∧
        (createVoiceSamples q minD maxD (Except.ok chunks)).totalSamples = 0 ∧
        (createVoiceSamples q minD maxD (Except.ok chunks)).bestSamples = [] := by
  intro q minD maxD chunks h
  simp [createVoiceSamples, h]

/-- Witness for the amended C3 at the concrete too-short chunk list. -/
theorem claim_C3_zero_chunks_empty_success_witness :
    (createVoiceSamples (fun _ => 0) 3 10
        (Except.ok [{ duration := 1, samples := [] }])).success = true ∧
      (createVoiceSamples (fun _ => 0) 3 10
        (Except.ok [{ duration := 1, samples := [] }])).totalSamples = 0 ∧
      (createVoiceSamples (fun _ => 0) 3 10
        (Except.ok [{ duration := 1, samples := [] }])).bestSamples = [] :=
  claim_C3_zero_chunks_empty_success (fun _ => 0) 3 10
    [{ duration := 1, samples := [] }] (by decide)

/-- C6: for every quality heuristic, chunk list and duration bounds, the
sample set returned by `create_voice_samples` contains no sample with
duration strictly below min_duration or strictly above max_duration, has at
most 10 entries, and its quality scores are non-increasing in list order. -/
theorem claim_C6_segment_filter_cap_sorted :
    ∀ (q : AudioChunk → ℚ) (minD maxD : ℚ) (chunks : List AudioChunk),
      (∀ s ∈ (createVoiceSamples q minD maxD (Except.ok chunks)).bestSamples,
        minD ≤ s.duration ∧ s.duration ≤ maxD) ∧
      (createVoiceSamples q minD maxD (Except.ok chunks)).bestSamples.length ≤ 10 ∧
      List.Pairwise (fun a b : ℚ => b ≤ a)
        ((createVoiceSamples q minD maxD (Except.ok chunks)).bestSamples.map
          ScoredSample.quality) := by
  intro q minD maxD chunks
  letI : IsTotal ScoredSample qualityGE := ⟨fun a b => le_total b.quality a.quality⟩
  letI : IsTrans ScoredSample qualityGE := ⟨fun a b c h1 h2 => le_trans h2 h1⟩
  set valid : List ScoredSample := (filterChunks minD maxD chunks).map
    (fun c => { duration := c.duration, quality := q c }) with hvalid
  have hbest : (createVoiceSamples q minD maxD (Except.ok chunks)).bestSamples =
      (List.insertionSort qualityGE valid).take
        (min 10 (List.insertionSort qualityGE valid).length) := rfl
  refine ⟨?_, ?_, ?_⟩
  · intro s hs
    rw [hbest] at hs
    have h1 : s ∈ List.insertionSort qualityGE valid := List.take_subset _ _ hs
    have h2 : s ∈ valid := (List.perm_insertionSort qualityGE valid).subset h1
    rw [hvalid] at h2
    obtain ⟨c, hc, rfl⟩ := List.mem_map.mp h2
    have hp := (List.mem_filter.mp hc).2
    simp only [Bool.and_eq_true, decide_eq_true_eq] at hp
    exact hp
  · rw [hbest, List.length_take]
    exact le_trans (min_le_left _ _) (min_le_left _ _)
  · rw [hbest]
    have hsorted : List.Pairwise qualityGE (List.insertionSort qualityGE valid) :=
      List.sorted_insertionSort qualityGE valid
    have htake : List.Pairwise qualityGE
        ((List.insertionSort qualityGE valid).take
          (min 10 (List.insertionSort qualityGE valid).length)) :=
      hsorted.sublist (List.take_sublist _ _)
    exact List.pairwise_map.mpr htake

/-- Witness for C6 at a single in-range chunk of duration 5. -/
theorem claim_C6_segment_filter_cap_sorted_witness :
    ((3 : ℚ) ≤ 5 ∧ (5 : ℚ) ≤ 10) ∧
      (createVoiceSamples (fun _ => 0) 3 10
        (Except.ok [{ duration := 5, samples := [] }])).bestSamples.length ≤ 10 :=
  ⟨(claim_C6_segment_filter_cap_sorted (fun _ => 0) 3 10
        [{ duration := 5, samples := [] }]).1 { duration := 5, quality := 0 } (by decide),
    (claim_C6_segment_filter_cap_sorted (fun _ => 0) 3 10
        [{ duration := 5, samples := [] }]).2.1⟩

/-- C4 counterexample: on a concrete entirely-silent 64-sample input the
preprocessor returns a plain empty array — trimming removes nothing (the dB
floor of the trim threshold makes all-zero frames count as non-silent), but
the istft truncation of the noise-reduction step rounds the length down to
512 * (64 / 512) = 0 — and there is no EmptyAfterTrim condition:
`extract_voice_from_audio` reports an ordinary success with no error, the
empty array silently propagating downstream. -/
theorem claim_C4_counterexample_silent_success :
    processAudioFile (List.replicate 64 0) = [] ∧
      (extractVoiceFromAudio (Except.ok (List.replicate 64 0))
        (Except.ok ()) 0 0).success = true ∧
      (extractVoiceFromAudio (Except.ok (List.replicate 64 0))
        (Except.ok ()) 0 0).error = none := by
  refine ⟨?_, rfl, rfl⟩
  rw [processAudioFile_replicate_zero 64]
  rw [show istftLen 64 = 0 by rw [istftLen]]
  rfl

/-- C4 (amended): on every entirely-silent input of length n, silence
trimming removes nothing (all-zero signals have zero reference power, and
the dB floor makes every frame non-silent), and the istft of the
noise-reduction step truncates the length to 512 * (n / 512), so
`_process_audio_file` returns a plain all-zero array (empty when n < 512) —
never a distinct EmptyAfterTrim condition — and `extract_voice_from_audio`
reports success = true with no error, silently propagating the silent
(possibly empty) array downstream. -/
theorem claim_C4_silent_input_passthrough :
    ∀ (n : ℕ) (snr sc : ℚ),
      processAudioFile (List.replicate n 0) = List.replicate (512 * (n / 512)) 0 ∧
      (extractVoiceFromAudio (Except.ok (List.replicate n 0))
        (Except.ok ()) snr sc).success = true ∧
      (extractVoiceFromAudio (Except.ok (List.replicate n 0))
        (Except.ok ()) snr sc).error = none :=
  fun n _ _ => ⟨processAudioFile_replicate_zero n, rfl, rfl⟩

/-- C5 counterexample: a one-second recording (D = 1) whose first half is
silence and second half is full-scale signal.  The capture loop reads
int(44100 / 1024 * 1) * 1024 = 44032 samples, but the waveform that
`record_voice_from_microphone` saves has been resampled to 22050 Hz,
silence-trimmed and denoised (with the istft truncating to a multiple of
512): it has 10752 samples, so its length over its sample rate is about
0.488 s — off from D = 1 by far more than one frame-period
1024 / 44100 ≈ 0.023 s. -/
theorem claim_C5_counterexample_trimmed_recording :
    ¬ (|((recordSavedWaveform
          (List.replicate 22016 0 ++ List.replicate 22016 1) 1).length : ℚ)
            / sampleRate - 1| ≤ chunkSize / captureRate) := by
  have hcap : capturedSamples (List.replicate 22016 0 ++ List.replicate 22016 1) 1 =
      List.replicate 22016 0 ++ List.replicate 22016 1 := by
    apply List.take_of_length_le
    have hn : numFrames 1 * chunkSize = 44032 := by decide
    simp only [List.length_append, List.length_replicate]
    rw [hn]
  have hdec : decimate (List.replicate 22016 (0 : ℚ) ++ List.replicate 22016 1) =
      List.replicate 11008 0 ++ List.replicate 11008 1 := by
    have h1 : (22016 : ℕ) = 2 * 11008 := by norm_num
    rw [h1, decimate_replicate_two_mul 11008 0 (List.replicate (2 * 11008) 1),
      decimate_replicate 11008 1]
  have hsaved : recordSavedWaveform
      (List.replicate 22016 0 ++ List.replicate 22016 1) 1 =
      List.replicate 10752 (1 / 10) := by
    rw [recordSavedWaveform, hcap, hdec, processAudioFile_zeros_ones]
    · rw [show istftLen 11008 = 10752 by rw [istftLen]]
    · rw [noiseFrames]
      norm_num
  rw [hsaved, List.length_replicate, sampleRate, chunkSize, captureRate]
  rw [abs_of_neg (by norm_num)]
  norm_num

/-- C5 (amended): provided the stream supplies enough frames, the raw capture
of `record_voice_from_microphone` contains exactly
int(rate / chunk * D) * chunk samples, whose length divided by the 44100 Hz
capture rate is within one frame-period (1024 / 44100) below D; the waveform
it then saves is resampled, silence-trimmed and denoised, so only the raw
capture — not the saved file — is guaranteed to be within one frame-period
of D. -/
theorem claim_C5_raw_capture_within_frame_period :
    ∀ (d : ℕ) (mic : List ℚ), numFrames d * chunkSize ≤ mic.length →
      (capturedSamples mic d).length = numFrames d * chunkSize ∧
      0 ≤ (d : ℚ) - ((capturedSamples mic d).length : ℚ) / captureRate ∧
      (d : ℚ) - ((capturedSamples mic d).length : ℚ) / captureRate <
        (chunkSize : ℚ) / captureRate := by
  intro d mic hlen
  have hcaplen : (capturedSamples mic d).length = numFrames d * chunkSize := by
    rw [capturedSamples, List.length_take]
    exact min_eq_left hlen
  have hdm : 1024 * (44100 * d / 1024) + 44100 * d % 1024 = 44100 * d :=
    Nat.div_add_mod (44100 * d) 1024
  have hdm2 : (1024 : ℚ) * ((44100 * d / 1024 : ℕ) : ℚ) + ((44100 * d % 1024 : ℕ) : ℚ) =
      44100 * (d : ℚ) := by
    exact_mod_cast congrArg (fun n : ℕ => (n : ℚ)) hdm
  have hrlt : ((44100 * d % 1024 : ℕ) : ℚ) < 1024 := by
    exact_mod_cast Nat.mod_lt (44100 * d) (by norm_num : (0 : ℕ) < 1024)
  have hrpos : (0 : ℚ) ≤ ((44100 * d % 1024 : ℕ) : ℚ) := by positivity
  have hNcast : ((numFrames d * chunkSize : ℕ) : ℚ) =
      ((44100 * d / 1024 : ℕ) : ℚ) * 1024 := by
    simp only [numFrames, captureRate, chunkSize]
    push_cast
    ring
  refine ⟨hcaplen, ?_, ?_⟩
  · rw [hcaplen, hNcast, captureRate, sub_nonneg]
    push_cast
    rw [div_le_iff (by norm_num : (0 : ℚ) < (44100 : ℚ))]
    nlinarith [hdm2, hrpos]
  · rw [hcaplen, hNcast, captureRate, chunkSize, sub_lt_iff_lt_add, div_add_div_same]
    push_cast
    rw [lt_div_iff (by norm_num : (0 : ℚ) < (44100 : ℚ))]
    nlinarith [hdm2, hrlt]

/-- Witness for the amended C5 at D = 1 with a 44032-sample stream. -/
theorem claim_C5_raw_capture_within_frame_period_witness :
    (capturedSamples (List.replicate 44032 0) 1).length = numFrames 1 * chunkSize ∧
      0 ≤ (1 : ℚ) - ((capturedSamples (List.replicate 44032 0) 1).length : ℚ) / captureRate ∧
      (1 : ℚ) - ((capturedSamples (List.replicate 44032 0) 1).length : ℚ) / captureRate <
        (chunkSize : ℚ) / captureRate := by
  have h := claim_C5_raw_capture_within_frame_period 1 (List.replicate 44032 0)
    (by rw [List.length_replicate]; decide)
  refine ⟨h.1, ?_, ?_⟩
  · have h2 := h.2.1
    rw [Nat.cast_one] at h2
    exact h2
  · have h2 := h.2.2
    rw [Nat.cast_one] at h2
    exact h2

end AutoAvatar
